import Mathlib

/-!
Shallow embedding of the fz-cli source (fluidzero/fz-cli) for checking its
natural-language specification.

Embedded modules:
* `src/fz_cli/constants.py`   — exit codes and defaults
* `src/fz_cli/auth/credentials.py` — credentials store (load/save)
* `src/fz_cli/auth/token.py`  — TokenManager (set_tokens, is_expired,
  get_access_token, refresh)
* `src/fz_cli/errors.py`      — handle_api_error
* `src/fz_cli/client.py`      — FZClient.request 401 replay logic
* `src/fz_cli/upload.py`      — part plan arithmetic of upload_file / _upload_part
* `src/fz_cli/commands/runs.py` and `commands/batch.py` — _wait_for_run
* `src/fz_cli/config.py`      — load_config layering

Conventions of the embedding: Python `int` is `Int`; wall-clock instants are
`Int` seconds; Python truthiness on strings is modelled explicitly
(`none` or `""` is falsy); JSON values that matter are modelled by `JVal`;
a JSON object is an association list `JObj` (a key occurs at most once in
objects we construct; `get?` takes the first binding).  Network effects are
passed in as explicit outcome values, and JWT decoding (an external library
call) is an oracle parameter `decode : String → Option Int` returning the
`exp` claim when the token decodes and carries one.
-/

namespace FzCli

/-- Exit codes from `constants.py`. -/
def EXIT_GENERAL_ERROR : Nat := 1

def EXIT_AUTH_FAILURE : Nat := 2

def EXIT_PERMISSION_DENIED : Nat := 3

def EXIT_NOT_FOUND : Nat := 4

def EXIT_CONFLICT : Nat := 5

def EXIT_RUN_FAILED : Nat := 6

def EXIT_TIMEOUT : Nat := 7

def EXIT_NETWORK_ERROR : Nat := 10

/-- Python truthiness of an optional string: `None` and `""` are falsy. -/
def strTruthy : Option String → Bool
  | none => false
  | some s => s ≠ ""

-- ── JSON model ────────────────────────────────────────────────────────────

/-- JSON scalar values stored in the credentials file / response bodies. -/
inductive JVal where
  | str (s : String)
  | num (n : Int)
  | nul
  deriving DecidableEq, Repr

/-- A JSON object: association list of present keys (keys are distinct in
every object the code constructs). -/
abbrev JObj := List (String × JVal)

/-- First binding of a key, `none` when the key is absent. -/
def JObj.get? (o : JObj) (k : String) : Option JVal :=
  match o.find? (fun p => p.1 = k) with
  | some p => some p.2
  | none => none

/-- Read a key expecting a string; JSON `null` or absence give `none`
(mirrors Python where both become `None`-ish reads on the documented
record shapes). -/
def JObj.getStr? (o : JObj) (k : String) : Option String :=
  match o.get? k with
  | some (.str s) => some s
  | _ => none

/-- Read a key expecting an integer, with a default (Python `d.get(k, dflt)`
on the documented integer fields). -/
def JObj.getIntD (o : JObj) (k : String) (dflt : Int) : Int :=
  match o.get? k with
  | some (.num n) => n
  | _ => dflt

-- ── Credentials store (`auth/credentials.py`) ─────────────────────────────

/-- The arguments of `save_credentials` (the persisted record). -/
structure CredsRecord where
  access_token : String
  refresh_token : Option String
  expires_at : Int
  api_url : String
  client_id : Option String
  deriving DecidableEq, Repr

/-- The JSON payload `save_credentials` writes: the four mandatory keys,
plus `client_id` only when it is truthy (`if client_id:` in the source). -/
def CredsRecord.toJObj (r : CredsRecord) : JObj :=
  [("access_token", .str r.access_token),
   ("refresh_token", match r.refresh_token with | some s => .str s | none => .nul),
   ("expires_at", .num r.expires_at),
   ("api_url", .str r.api_url)] ++
  (match r.client_id with
   | some c => if c = "" then [] else [("client_id", .str c)]
   | none => [])

/-- What is on disk at the credentials path: nothing, unparsable/non-object
content, or a parsed JSON object. -/
inductive CredFile where
  | absent
  | corrupt
  | obj (o : JObj)
  deriving DecidableEq, Repr

/-- Filesystem state around the credentials path: whether the parent
directory exists, the file content, and the file's permission bits. -/
structure FS where
  dirExists : Bool
  file : CredFile
  mode : Nat
  deriving DecidableEq, Repr

/-- `load_credentials`: `None` when the file is absent, unreadable, not a
JSON object, or lacks an `access_token` key; otherwise the parsed object. -/
def load_credentials (fs : FS) : Option JObj :=
  match fs.file with
  | .absent => none
  | .corrupt => none
  | .obj o => if (o.get? "access_token").isSome then some o else none

/-- `save_credentials`: create parent directories, write the JSON payload,
then chmod the file to `0o600`. -/
def save_credentials (fs : FS) (r : CredsRecord) : FS :=
  { fs with dirExists := true, file := .obj r.toJObj, mode := 0o600 }

-- ── TokenManager (`auth/token.py`) ────────────────────────────────────────

/-- In-memory `TokenManager` state (`__init__` fields). -/
structure TMState where
  access_token : Option String
  refresh_token : Option String
  expires_at : Int
  api_url : String
  client_id : Option String
  deriving DecidableEq, Repr

/-- The record a `TokenManager` state persists via `save_credentials`
(the keyword arguments at the two call sites; `access_token` is always a
real string there). -/
def TMState.record (s : TMState) (tok : String) : CredsRecord :=
  { access_token := tok
    refresh_token := s.refresh_token
    expires_at := s.expires_at
    api_url := s.api_url
    client_id := s.client_id }

/-- `TokenManager.load_from_credentials`. -/
def load_from_credentials (s : TMState) (fs : FS) : Bool × TMState :=
  match load_credentials fs with
  | none => (false, s)
  | some creds =>
    let s1 : TMState :=
      { access_token := creds.getStr? "access_token"
        refresh_token := creds.getStr? "refresh_token"
        expires_at := creds.getIntD "expires_at" 0
        client_id := creds.getStr? "client_id"
        api_url :=
          match creds.getStr? "api_url" with
          | some u => if u = "" then s.api_url else u
          | none => s.api_url }
    (true, s1)

/-- `TokenManager.set_tokens`: install the tokens, set
`expires_at = now + expires_in`, update `client_id` when truthy, and
persist.  Returns the new state and the record handed to
`save_credentials`. -/
def set_tokens (s : TMState) (now : Int) (access : String)
    (refresh : Option String) (expires_in : Int) (clientId : Option String) :
    TMState × CredsRecord :=
  let cid :=
    match clientId with
    | some c => if c = "" then s.client_id else some c
    | none => s.client_id
  let s1 : TMState :=
    { access_token := some access
      refresh_token := refresh
      expires_at := now + expires_in
      api_url := s.api_url
      client_id := cid }
  (s1, s1.record access)

/-- `TokenManager.is_expired`: `self._expires_at - 60 < int(time.time())`. -/
def is_expired (s : TMState) (now : Int) : Bool :=
  s.expires_at - 60 < now

/-- Body of a `/oauth/token` refresh response, as read with `.get`:
`none` models an absent key. -/
structure RefreshBody where
  access_token : Option String
  refresh_token : Option String
  expires_in : Option Int
  deriving DecidableEq, Repr

/-- Final outcome of the refresh POST after the internal transient-retry
loop of `TokenManager.refresh`: all network retries exhausted, or a final
HTTP response whose body parses to `some b` (invalid JSON is `none`). -/
inductive HttpOutcome where
  | netFail
  | response (status : Nat) (body : Option RefreshBody)
  deriving DecidableEq, Repr

/-- `TokenManager.refresh`.  Returns `(ok, new state, record persisted)`
where the third component is `some r` exactly when `save_credentials` was
called with `r`.  `decode tok` is the `exp` claim of `_decode tok`
(`none` when the claim is missing or the token fails to decode). -/
def refresh (s : TMState) (now : Int) (oc : HttpOutcome)
    (decode : String → Option Int) : Bool × TMState × Option CredsRecord :=
  if ¬ strTruthy s.refresh_token then (false, s, none)
  else
    match oc with
    | .netFail => (false, s, none)
    | .response status body =>
      if status ≠ 200 then (false, s, none)
      else
        match body with
        | none => (false, s, none)
        | some b =>
          match b.access_token with
          | none => (false, s, none)
          | some tok =>
            if tok = "" then (false, s, none)
            else
              let rt :=
                match b.refresh_token with
                | some r => some r
                | none => s.refresh_token
              let exp :=
                match b.expires_in with
                | some n => if n ≠ 0 then now + n else (decode tok).getD (now + 300)
                | none => (decode tok).getD (now + 300)
              let s1 : TMState :=
                { access_token := some tok
                  refresh_token := rt
                  expires_at := exp
                  api_url := s.api_url
                  client_id := s.client_id }
              (true, s1, some (s1.record tok))

/-- `TokenManager.get_access_token`: absent when no (truthy) access token;
on expiry, refresh when a (truthy) refresh token exists, else absent; in
all remaining cases return the stored access token. -/
def get_access_token (s : TMState) (now : Int) (oc : HttpOutcome)
    (decode : String → Option Int) : Option String × TMState :=
  if ¬ strTruthy s.access_token then (none, s)
  else if is_expired s now then
    if strTruthy s.refresh_token then
      let r := refresh s now oc decode
      (r.2.1.access_token, r.2.1)
    else (none, s)
  else (s.access_token, s)

/-- `set_tokens` followed by the `save_credentials` it performs, acting on
the filesystem state. -/
def set_tokens_fs (s : TMState) (fs : FS) (now : Int) (access : String)
    (refresh : Option String) (expires_in : Int) (clientId : Option String) :
    TMState × FS :=
  let r := set_tokens s now access refresh expires_in clientId
  (r.1, save_credentials fs r.2)

/-- `refresh` together with its effect on the credentials file (persisting
exactly when it reaches the success path). -/
def refresh_fs (s : TMState) (fs : FS) (now : Int) (oc : HttpOutcome)
    (decode : String → Option Int) : Bool × TMState × FS :=
  match refresh s now oc decode with
  | (ok, s1, some r) => (ok, s1, save_credentials fs r)
  | (ok, s1, none) => (ok, s1, fs)

-- ── Error taxonomy (`errors.py`) ──────────────────────────────────────────

/-- Contiguous-substring scan over character lists. -/
def charsContain (needle : List Char) : List Char → Bool
  | [] => needle.isPrefixOf ([] : List Char)
  | c :: t => needle.isPrefixOf (c :: t) || charsContain needle t

/-- Case-insensitive substring test: Python `needle in header.lower()` with a
lowercase ASCII needle (`str.lower` restricted to the ASCII header values
the code inspects). -/
def lowerContains (header needle : String) : Bool :=
  charsContain needle.toList (header.toList.map Char.toLower)

/-- An HTTP response as the error handler sees it: status, the
`WWW-Authenticate` header (empty string when absent, as `headers.get`
defaults), and the `detail` string `_extract_detail` finds (or `none`). -/
structure Resp where
  status : Nat
  wwwAuth : String
  detail : Option String
  deriving DecidableEq, Repr

/-- What `handle_api_error` prints and the code it exits with. -/
structure ApiErrorOut where
  exitCode : Nat
  message : String
  hint : Option String
  deriving DecidableEq, Repr

/-- The `_STATUS_MAP` table of `errors.py`. -/
def statusMap (status : Nat) : Option (Nat × String × Option String) :=
  if status = 401 then
    some (EXIT_AUTH_FAILURE, "Authentication failed",
          some "Run `fz auth login` to re-authenticate.")
  else if status = 403 then some (EXIT_PERMISSION_DENIED, "Permission denied", none)
  else if status = 404 then some (EXIT_NOT_FOUND, "Resource not found", none)
  else if status = 409 then some (EXIT_CONFLICT, "Conflict", none)
  else none

/-- `handle_api_error`: map a 4xx/5xx response to message, hint and exit
code, with the 401 `WWW-Authenticate` specialisations applied last. -/
def handle_api_error (r : Resp) : ApiErrorOut :=
  let base : ApiErrorOut :=
    match statusMap r.status with
    | some (code, dmsg, hint) =>
      { exitCode := code
        message := r.detail.getD (dmsg ++ " (" ++ toString r.status ++ ")")
        hint := hint }
    | none =>
      if 400 ≤ r.status ∧ r.status < 500 then
        { exitCode := EXIT_GENERAL_ERROR
          message := r.detail.getD ("Client error (" ++ toString r.status ++ ")")
          hint := none }
      else
        { exitCode := EXIT_GENERAL_ERROR
          message := r.detail.getD ("Server error (" ++ toString r.status ++ ")")
          hint := some "The API returned an unexpected error. Try again later." }
  if r.status = 401 then
    if lowerContains r.wwwAuth "revoked" then
      { base with
        message := "Authentication failed — token has been revoked"
        hint := some "Create new credentials and run `fz auth login`." }
    else if lowerContains r.wwwAuth "expired" then
      { base with
        message := "Authentication failed — token has expired"
        hint := some "Run `fz auth login` to re-authenticate." }
    else base
  else base

-- ── FZClient.request 401 replay (`client.py`) ─────────────────────────────

/-- The replayed request either fails at the network layer
(`httpx.RequestError` → `handle_network_error`) or yields a response. -/
inductive ReplayAttempt where
  | netErr
  | resp (r : Resp)
  deriving DecidableEq, Repr

/-- Result of `FZClient.request`, with the instrumentation the temporal
claims need: how often the request was replayed after a 401, and whether
`_retry_auth` (refresh / M2M re-exchange) was invoked at all. -/
structure ReqOutcome where
  exitCode : Option Nat
  message : Option String
  returned : Option Resp
  replays : Nat
  recoveryAttempted : Bool
  deriving DecidableEq, Repr

/-- Tail of `FZClient.request` after the 401 handling: responses with
status ≥ 400 go to `handle_api_error` (process exit), others are
returned. -/
def finishRequest (r : Resp) (replays : Nat) (attempted : Bool) : ReqOutcome :=
  if 400 ≤ r.status then
    let e := handle_api_error r
    { exitCode := some e.exitCode, message := some e.message, returned := none
      replays := replays, recoveryAttempted := attempted }
  else
    { exitCode := none, message := none, returned := some r
      replays := replays, recoveryAttempted := attempted }

/-- `FZClient.request` from the point where the transient-retry loop has
produced the response `first`: on a 401 whose `WWW-Authenticate` does not
contain "revoked", attempt auth recovery (`authOk` tells whether
`_retry_auth` succeeds) and on success replay the request once
(`replay` is that second attempt's outcome); in every other case fall
through to error handling / return. -/
def clientRequest (first : Resp) (authOk : Bool) (replay : ReplayAttempt) :
    ReqOutcome :=
  if first.status = 401 then
    if lowerContains first.wwwAuth "revoked" then
      finishRequest first 0 false
    else if authOk then
      match replay with
      | .netErr =>
        { exitCode := some EXIT_NETWORK_ERROR, message := none, returned := none
          replays := 1, recoveryAttempted := true }
      | .resp r2 => finishRequest r2 1 true
    else finishRequest first 0 true
  else finishRequest first 0 false

-- ── Upload part plan (`upload.py`) ────────────────────────────────────────

/-- Bytes `f.read(req)` returns after `f.seek(off)` on a file of `size`
bytes (`0 ≤ req`): everything from `off` up to `req` bytes or end of
file. -/
def readLen (size off req : Int) : Int :=
  max 0 (min req (size - off))

/-- One entry of `parts_to_upload` in `upload_file`:
`offset = (partNumber - 1) * part_size`, `size = min(part_size,
file_size - offset)`. -/
structure PartTask where
  partNumber : Nat
  offset : Int
  size : Int
  deriving DecidableEq, Repr

/-- The part numbers `1, …, totalParts` carried by the presigned URL
list. -/
def partNumbers (totalParts : Nat) : List Nat :=
  (List.range totalParts).map (· + 1)

/-- `parts_to_upload` built from the presigned URLs' part numbers. -/
def partsToUpload (fileSize partSize : Int) (nums : List Nat) : List PartTask :=
  nums.map (fun pn =>
    { partNumber := pn
      offset := ((pn : Int) - 1) * partSize
      size := min partSize (fileSize - ((pn : Int) - 1) * partSize) })

/-- The `(part_number, len(chunk))` pairs recorded in `uploaded_parts` (and
reported as `sizeBytes`) for a completed upload: `_upload_part` reads the
chunk at each task's offset and returns its length. -/
def recordedParts (fileSize partSize : Int) (totalParts : Nat) :
    List (Nat × Int) :=
  (partsToUpload fileSize partSize (partNumbers totalParts)).map
    (fun t => (t.partNumber, readLen fileSize t.offset t.size))

-- ── Run wait loop (`commands/runs.py` / `commands/batch.py`) ──────────────

/-- A run snapshot as `_wait_for_run` reads it from each poll. -/
structure RunSnap where
  status : String
  errorMessage : Option String
  deriving DecidableEq, Repr

/-- Terminal run statuses (`if status in ("completed", "failed",
"cancelled")`). -/
def isTerminal (status : String) : Bool :=
  status = "completed" || status = "failed" || status = "cancelled"

/-- How a `_wait_for_run` invocation ends: return the final run snapshot,
or `sys.exit code`. -/
inductive WaitResult where
  | ret (run : RunSnap)
  | exit (code : Nat)
  deriving DecidableEq, Repr

/-- `_wait_for_run` (identical logic in `commands/runs.py` and
`commands/batch.py`), driven by the sequence of polls: each element is the
snapshot a `GET /api/runs/{id}` returned together with the elapsed
monotonic time at that iteration's timeout check.  Terminal status breaks
the loop (then `failed` exits `EXIT_RUN_FAILED`, otherwise the snapshot is
returned); a non-terminal snapshot whose elapsed time exceeds the timeout
exits `EXIT_TIMEOUT`; otherwise the loop polls again.  `none` means the
given polls were exhausted with the loop still running. -/
def waitForRun (timeout : Int) : List (RunSnap × Int) → Option WaitResult
  | [] => none
  | (run, elapsed) :: rest =>
    if isTerminal run.status then
      if run.status = "failed" then some (.exit EXIT_RUN_FAILED)
      else some (.ret run)
    else if elapsed > timeout then some (.exit EXIT_TIMEOUT)
    else waitForRun timeout rest

-- ── Configuration layering (`config.py`) ──────────────────────────────────

/-- The recognised content of one TOML config file: the `[defaults]`,
`[upload]` and `[runs]` sections, the top-level `authkit_subdomain` /
`oauth_client_id` keys, and the top-level `project` key honoured in the
local file. -/
structure Toml where
  defaults_api_url : Option String
  defaults_project : Option String
  defaults_output : Option String
  authkit_subdomain : Option String
  oauth_client_id : Option String
  upload_concurrency : Option Int
  upload_retry_attempts : Option Int
  runs_poll_interval : Option Int
  runs_timeout : Option Int
  top_project : Option String
  deriving DecidableEq, Repr

/-- A TOML file with nothing recognised set. -/
def Toml.empty : Toml :=
  { defaults_api_url := none, defaults_project := none, defaults_output := none
    authkit_subdomain := none, oauth_client_id := none
    upload_concurrency := none, upload_retry_attempts := none
    runs_poll_interval := none, runs_timeout := none, top_project := none }

/-- The environment variables `load_config` consults. -/
structure Env where
  fz_api_url : Option String
  fz_project_id : Option String
  fz_output : Option String
  fz_authkit_subdomain : Option String
  fz_oauth_client_id : Option String
  deriving DecidableEq, Repr

/-- An environment with none of the `FZ_*` variables set. -/
def Env.empty : Env :=
  { fz_api_url := none, fz_project_id := none, fz_output := none
    fz_authkit_subdomain := none, fz_oauth_client_id := none }

/-- The resolved `FZConfig` dataclass. -/
structure FZConfig where
  api_url : String
  project : Option String
  output : String
  authkit_subdomain : String
  oauth_client_id : String
  upload_concurrency : Int
  upload_retry_attempts : Int
  run_poll_interval : Int
  run_timeout : Int
  deriving DecidableEq, Repr

/-- Hardcoded defaults from `constants.py` used by `FZConfig`. -/
def DEFAULT_API_URL : String := "https://api-staging.fluidzero.ai"

def DEFAULT_AUTHKIT_SUBDOMAIN : String := "euphoric-grape-60-staging"

def DEFAULT_OAUTH_CLIENT_ID : String := "client_01KGA8ECKMDH8GWPZR00QGPTBZ"

def RUN_POLL_INTERVAL : Int := 2

def RUN_TIMEOUT : Int := 600

def UPLOAD_CONCURRENCY : Int := 5

def UPLOAD_RETRY_ATTEMPTS : Int := 3

/-- Python `os.getenv(v) or fallback`: an unset or empty variable falls
through. -/
def envOr (v : Option String) (fallback : String) : String :=
  match v with
  | some s => if s = "" then fallback else s
  | none => fallback

/-- Python `os.getenv(v) or d.get(k, default)` where the dict value is
optional. -/
def envOrOpt (v : Option String) (fallback : Option String) : Option String :=
  match v with
  | some s => if s = "" then fallback else some s
  | none => fallback

/-- `load_config`: merge the two TOML files section-wise (local key wins
inside `defaults` / `upload` / `runs`, with the local top-level `project`
overriding the merged `defaults.project`), then resolve each field;
`authkit_subdomain` and `oauth_client_id` come from the environment, else
the GLOBAL file's top level, else the hardcoded default. -/
def load_config (globalCfg localCfg : Toml) (env : Env) : FZConfig :=
  let m_api_url := localCfg.defaults_api_url <|> globalCfg.defaults_api_url
  let m_project :=
    match localCfg.top_project with
    | some p => some p
    | none => localCfg.defaults_project <|> globalCfg.defaults_project
  let m_output := localCfg.defaults_output <|> globalCfg.defaults_output
  let m_upload_concurrency :=
    localCfg.upload_concurrency <|> globalCfg.upload_concurrency
  let m_upload_retry_attempts :=
    localCfg.upload_retry_attempts <|> globalCfg.upload_retry_attempts
  let m_runs_poll_interval :=
    localCfg.runs_poll_interval <|> globalCfg.runs_poll_interval
  let m_runs_timeout := localCfg.runs_timeout <|> globalCfg.runs_timeout
  { api_url := envOr env.fz_api_url (m_api_url.getD DEFAULT_API_URL)
    project := envOrOpt env.fz_project_id m_project
    output := envOr env.fz_output (m_output.getD "table")
    authkit_subdomain :=
      envOr env.fz_authkit_subdomain
        (match globalCfg.authkit_subdomain with
         | some s => if s = "" then DEFAULT_AUTHKIT_SUBDOMAIN else s
         | none => DEFAULT_AUTHKIT_SUBDOMAIN)
    oauth_client_id :=
      envOr env.fz_oauth_client_id
        (match globalCfg.oauth_client_id with
         | some s => if s = "" then DEFAULT_OAUTH_CLIENT_ID else s
         | none => DEFAULT_OAUTH_CLIENT_ID)
    upload_concurrency := m_upload_concurrency.getD UPLOAD_CONCURRENCY
    upload_retry_attempts := m_upload_retry_attempts.getD UPLOAD_RETRY_ATTEMPTS
    run_poll_interval := m_runs_poll_interval.getD RUN_POLL_INTERVAL
    run_timeout := m_runs_timeout.getD RUN_TIMEOUT }

-- ── Sample values used by witnesses and counterexamples ───────────────────

/-- Oracle for `_decode` that never yields an `exp` claim. -/
def noExp : String → Option Int := fun _ => none

/-- Oracle for `_decode` returning a fixed `exp` claim of 5000. -/
def expAt5000 : String → Option Int := fun _ => some 5000

/-- Sample in-memory token state: a stale access token plus refresh token. -/
def tmStale : TMState :=
  { access_token := some "old", refresh_token := some "rt", expires_at := 0
    api_url := "u", client_id := none }

/-- Token-manager state as `__init__` builds it. -/
def tmInit (api : String) : TMState :=
  { access_token := none, refresh_token := none, expires_at := 0
    api_url := api, client_id := none }

/-- Sample filesystem with no credentials file. -/
def fs0 : FS := { dirExists := false, file := .absent, mode := 0 }

-- ════════════════════════════ Theorems ════════════════════════════════════

-- Helper lemmas about the branch structure of `refresh`.

/-- Exhaustive case split on `refresh`: it either reaches the success path
(HTTP 200, parsed body, truthy `access_token`) and returns the documented
new state together with the persisted record, or it fails with the state
untouched and nothing persisted. -/
theorem refresh_cases (s : TMState) (now : Int) (oc : HttpOutcome)
    (decode : String → Option Int) :
    (∃ b tok s1, strTruthy s.refresh_token = true ∧ oc = .response 200 (some b) ∧
      b.access_token = some tok ∧ tok ≠ "" ∧
      refresh s now oc decode = (true, s1, some (s1.record tok)) ∧
      s1.access_token = some tok ∧
      s1.refresh_token =
        (match b.refresh_token with | some r => some r | none => s.refresh_token) ∧
      s1.expires_at =
        (match b.expires_in with
         | some n => if n ≠ 0 then now + n else (decode tok).getD (now + 300)
         | none => (decode tok).getD (now + 300)) ∧
      s1.api_url = s.api_url ∧ s1.client_id = s.client_id) ∨
    refresh s now oc decode = (false, s, none) := by
  by_cases hrt : strTruthy s.refresh_token = true
  · cases oc with
    | netFail => right; simp [refresh, hrt]
    | response status body =>
      by_cases hst : status = 200
      · subst hst
        cases body with
        | none => right; simp [refresh, hrt]
        | some b =>
          cases hat : b.access_token with
          | none => right; simp [refresh, hrt, hat]
          | some tok =>
            by_cases htok : tok = ""
            · right; simp [refresh, hrt, hat, htok]
            · left
              refine ⟨b, tok,
                { access_token := some tok
                  refresh_token :=
                    match b.refresh_token with
                    | some r => some r
                    | none => s.refresh_token
                  expires_at :=
                    match b.expires_in with
                    | some n => if n ≠ 0 then now + n else (decode tok).getD (now + 300)
                    | none => (decode tok).getD (now + 300)
                  api_url := s.api_url
                  client_id := s.client_id },
                hrt, rfl, hat, htok, ?_, rfl, rfl, rfl, rfl, rfl⟩
              simp [refresh, TMState.record, hrt, hat, htok]
      · right; simp [refresh, hrt, hst]
  · right; simp [refresh, hrt]

/-- When `refresh` reports failure it neither mutates the state nor calls
`save_credentials`. -/
theorem refresh_false_no_mutation (s : TMState) (now : Int) (oc : HttpOutcome)
    (decode : String → Option Int) (h : (refresh s now oc decode).1 = false) :
    (refresh s now oc decode).2.1 = s ∧ (refresh s now oc decode).2.2 = none := by
  rcases refresh_cases s now oc decode with
    ⟨b, tok, s1, _, _, _, _, heq, _⟩ | heq
  · rw [heq] at h; simp at h
  · rw [heq]; exact ⟨rfl, rfl⟩

/-- When `refresh` reports success it has called `save_credentials` with the
record of its new state. -/
theorem refresh_true_saves (s : TMState) (now : Int) (oc : HttpOutcome)
    (decode : String → Option Int) (h : (refresh s now oc decode).1 = true) :
    (refresh s now oc decode).2.2.isSome = true := by
  rcases refresh_cases s now oc decode with
    ⟨b, tok, s1, _, _, _, _, heq, _⟩ | heq
  · rw [heq]; rfl
  · rw [heq] at h; simp at h

/-- C2 (counterexample): `set_tokens` with `expires_in = 0` at instant 1000
yields a state that `is_expired` already reports expired at instant 1000,
against the claim that `is_expired()` is false at the instant of the
`set_tokens` call for every `expires_in`. -/
theorem set_tokens_zero_delta_expired_at_call :
    is_expired (set_tokens (tmInit "u") 1000 "tok" none 0 none).1 1000 = true := by
  decide

/-- C2 (amended): for every `set_tokens(_, _, Δ)` at wall-clock `T` with
`Δ ≥ 60`, `is_expired()` is false at `T`; and for every `Δ`, `is_expired()`
is true at every instant from `T + Δ - 59` on. -/
theorem set_tokens_expiry_window (s : TMState) (T Δ : Int) (a : String)
    (r cid : Option String) (h : 60 ≤ Δ) :
    is_expired (set_tokens s T a r Δ cid).1 T = false ∧
    ∀ t : Int, T + Δ - 59 ≤ t → is_expired (set_tokens s T a r Δ cid).1 t = true := by
  constructor
  · simp only [set_tokens, is_expired, decide_eq_false_iff_not, not_lt]
    omega
  · intro t ht
    simp only [set_tokens, is_expired, decide_eq_true_eq]
    omega

/-- C2 witness: the amended window property at `T = 1000`, `Δ = 3600`. -/
theorem set_tokens_expiry_window_witness :
    is_expired (set_tokens (tmInit "u") 1000 "tok" none 3600 none).1 1000 = false ∧
    is_expired (set_tokens (tmInit "u") 1000 "tok" none 3600 none).1 4541 = true := by
  have h := set_tokens_expiry_window (tmInit "u") 1000 3600 "tok" none none (by decide)
  exact ⟨h.1, h.2 4541 (by decide)⟩

/-- C10: a credentials file that is a valid JSON object with an
`access_token` but no `expires_at` is accepted by `load_credentials` and
`load_from_credentials` (which returns true), the in-memory expiry defaults
to 0 so `is_expired` is immediately true, and without a stored refresh
token `get_access_token` returns absent. -/
theorem load_missing_expires_at (s : TMState) (fs : FS) (o : JObj) (a : String)
    (hfile : fs.file = .obj o) (ha : o.get? "access_token" = some (.str a))
    (hane : a ≠ "") (hexp : o.get? "expires_at" = none) :
    load_credentials fs = some o ∧
    (load_from_credentials s fs).1 = true ∧
    (load_from_credentials s fs).2.expires_at = 0 ∧
    (∀ now : Int, 0 ≤ now → is_expired (load_from_credentials s fs).2 now = true) ∧
    (o.get? "refresh_token" = none →
      ∀ (now : Int) (oc : HttpOutcome) (decode : String → Option Int), 0 ≤ now →
        (get_access_token (load_from_credentials s fs).2 now oc decode).1 = none) := by
  have hload : load_credentials fs = some o := by
    simp [load_credentials, hfile, ha]
  have hexp0 : (load_from_credentials s fs).2.expires_at = 0 := by
    simp [load_from_credentials, hload, JObj.getIntD, hexp]
  refine ⟨hload, ?_, hexp0, ?_, ?_⟩
  · simp [load_from_credentials, hload]
  · intro now hnow
    simp only [is_expired, hexp0, decide_eq_true_eq]
    omega
  · intro hrt now oc decode hnow
    have hs1 : (load_from_credentials s fs).2.refresh_token = none := by
      simp [load_from_credentials, hload, JObj.getStr?, hrt]
    have hacc : (load_from_credentials s fs).2.access_token = some a := by
      simp [load_from_credentials, hload, JObj.getStr?, ha]
    have hexpd : is_expired (load_from_credentials s fs).2 now = true := by
      simp only [is_expired, hexp0, decide_eq_true_eq]
      omega
    simp [get_access_token, hacc, hs1, hexpd, strTruthy, hane]

/-- C10 witness: concrete record `{"access_token": "tok"}` on disk. -/
theorem load_missing_expires_at_witness :
    load_credentials { dirExists := true, file := .obj [("access_token", .str "tok")], mode := 0o600 } =
      some [("access_token", .str "tok")] ∧
    (load_from_credentials (tmInit "u")
      { dirExists := true, file := .obj [("access_token", .str "tok")], mode := 0o600 }).1 = true ∧
    (load_from_credentials (tmInit "u")
      { dirExists := true, file := .obj [("access_token", .str "tok")], mode := 0o600 }).2.expires_at = 0 ∧
    is_expired (load_from_credentials (tmInit "u")
      { dirExists := true, file := .obj [("access_token", .str "tok")], mode := 0o600 }).2 1000 = true ∧
    (get_access_token (load_from_credentials (tmInit "u")
      { dirExists := true, file := .obj [("access_token", .str "tok")], mode := 0o600 }).2
      1000 .netFail noExp).1 = none := by
  have h := load_missing_expires_at (tmInit "u")
    { dirExists := true, file := .obj [("access_token", .str "tok")], mode := 0o600 }
    [("access_token", .str "tok")] "tok" rfl (by decide) (by decide) (by decide)
  exact ⟨h.1, h.2.1, h.2.2.1, h.2.2.2.1 1000 (by decide),
    h.2.2.2.2 (by decide) 1000 .netFail noExp (by decide)⟩

/-- C1 (counterexample): with a stale access token and a refresh token
present, a failing refresh (network retries exhausted) makes
`get_access_token` return the stale stored token, not absent as the claim
states. -/
theorem get_access_token_stale_after_failed_refresh :
    (refresh tmStale 1000 .netFail noExp).1 = false ∧
    is_expired tmStale 1000 = true ∧
    (get_access_token tmStale 1000 .netFail noExp).1 = some "old" := by
  decide

/-- C1 (amended): with no (truthy) access token `get_access_token` is
absent; expired with no (truthy) refresh token it is absent; expired with a
refresh token it performs the refresh and returns the manager's access
token afterwards — the refreshed token on success, the stale stored token
when the refresh fails. -/
theorem get_access_token_spec (s : TMState) (now : Int) (oc : HttpOutcome)
    (decode : String → Option Int) :
    (strTruthy s.access_token = false → (get_access_token s now oc decode).1 = none) ∧
    (strTruthy s.access_token = true → is_expired s now = true →
      strTruthy s.refresh_token = false →
      (get_access_token s now oc decode).1 = none) ∧
    (strTruthy s.access_token = true → is_expired s now = true →
      strTruthy s.refresh_token = true →
      (get_access_token s now oc decode).1 = (refresh s now oc decode).2.1.access_token ∧
      ((refresh s now oc decode).1 = false →
        (get_access_token s now oc decode).1 = s.access_token)) := by
  refine ⟨?_, ?_, ?_⟩
  · intro h
    simp [get_access_token, h]
  · intro h1 h2 h3
    simp [get_access_token, h1, h2, h3]
  · intro h1 h2 h3
    refine ⟨?_, ?_⟩
    · simp [get_access_token, h1, h2, h3]
    · intro hf
      have hm := refresh_false_no_mutation s now oc decode hf
      simp [get_access_token, h1, h2, h3, hm.1]

/-- C1 witness: expired state, successful refresh — the token returned is
the one held after the refresh. -/
theorem get_access_token_spec_witness :
    (get_access_token tmStale 1000
      (.response 200 (some { access_token := some "new", refresh_token := some "rt2", expires_in := some 3600 }))
      noExp).1 =
    (refresh tmStale 1000
      (.response 200 (some { access_token := some "new", refresh_token := some "rt2", expires_in := some 3600 }))
      noExp).2.1.access_token := by
  exact ((get_access_token_spec tmStale 1000
    (.response 200 (some { access_token := some "new", refresh_token := some "rt2", expires_in := some 3600 }))
    noExp).2.2 (by decide) (by decide) (by decide)).1

/-- C3 (counterexample): a 200 refresh response that carries
`expires_in = 0` is treated as carrying none (Python truthiness of
`if expires_in:`), so expiry is taken from the decoded `exp` claim — not
`now + expires_in` as the claim states. -/
theorem refresh_expires_in_zero_ignored :
    (refresh tmStale 1000
      (.response 200 (some { access_token := some "new", refresh_token := none, expires_in := some 0 }))
      expAt5000).1 = true ∧
    (refresh tmStale 1000
      (.response 200 (some { access_token := some "new", refresh_token := none, expires_in := some 0 }))
      expAt5000).2.1.expires_at = 5000 ∧
    (5000 : Int) ≠ 1000 + 0 := by
  decide

/-- C3 (amended): `refresh` (a total function — it never raises) returns
false on exhausted network retries, on a non-200 status, on an unparsable
body and on a missing `access_token`, and then leaves the state unchanged
with nothing persisted; on HTTP 200 with a truthy `access_token` it
installs that token, takes the response's `refresh_token` when present and
keeps the old one otherwise, sets expiry to `now + expires_in` when the
response carries a NONZERO `expires_in`, else to the decoded `exp` claim,
else to `now + 300`, and persists the updated record. -/
theorem refresh_spec (s : TMState) (now : Int) (oc : HttpOutcome)
    (decode : String → Option Int) :
    ((refresh s now oc decode).1 = false →
      (refresh s now oc decode).2.1 = s ∧ (refresh s now oc decode).2.2 = none) ∧
    (oc = .netFail → (refresh s now oc decode).1 = false) ∧
    (∀ st b, oc = .response st b → st ≠ 200 → (refresh s now oc decode).1 = false) ∧
    (oc = .response 200 none → (refresh s now oc decode).1 = false) ∧
    (∀ b, oc = .response 200 (some b) → b.access_token = none →
      (refresh s now oc decode).1 = false) ∧
    (∀ b tok, strTruthy s.refresh_token = true → oc = .response 200 (some b) →
      b.access_token = some tok → tok ≠ "" →
      (refresh s now oc decode).1 = true ∧
      (refresh s now oc decode).2.1.access_token = some tok ∧
      (∀ r, b.refresh_token = some r →
        (refresh s now oc decode).2.1.refresh_token = some r) ∧
      (b.refresh_token = none →
        (refresh s now oc decode).2.1.refresh_token = s.refresh_token) ∧
      (∀ n, b.expires_in = some n → n ≠ 0 →
        (refresh s now oc decode).2.1.expires_at = now + n) ∧
      (b.expires_in = none → ∀ e, decode tok = some e →
        (refresh s now oc decode).2.1.expires_at = e) ∧
      (b.expires_in = none → decode tok = none →
        (refresh s now oc decode).2.1.expires_at = now + 300) ∧
      (refresh s now oc decode).2.2 =
        some ((refresh s now oc decode).2.1.record tok)) := by
  refine ⟨refresh_false_no_mutation s now oc decode, ?_, ?_, ?_, ?_, ?_⟩
  · intro h
    subst h
    by_cases hrt : strTruthy s.refresh_token = true <;> simp [refresh, hrt]
  · intro st b h hst
    subst h
    by_cases hrt : strTruthy s.refresh_token = true <;> simp [refresh, hrt, hst]
  · intro h
    subst h
    by_cases hrt : strTruthy s.refresh_token = true <;> simp [refresh, hrt]
  · intro b h hat
    subst h
    by_cases hrt : strTruthy s.refresh_token = true <;> simp [refresh, hrt, hat]
  · intro b tok hrt hoc hat htok
    subst hoc
    refine ⟨?_, ?_, ?_, ?_, ?_, ?_, ?_, ?_⟩
    · simp [refresh, hrt, hat, htok]
    · simp [refresh, hrt, hat, htok]
    · intro r hr
      simp [refresh, hrt, hat, htok, hr]
    · intro hr
      simp [refresh, hrt, hat, htok, hr]
    · intro n hn hnz
      simp [refresh, hrt, hat, htok, hn, hnz]
    · intro hn e he
      simp [refresh, hrt, hat, htok, hn, he]
    · intro hn he
      simp [refresh, hrt, hat, htok, hn, he]
    · simp [refresh, hrt, hat, htok, TMState.record]

/-- C3 witness: a concrete successful refresh with a rotated refresh token
and `expires_in = 1800`, applying the amended specification. -/
theorem refresh_spec_witness :
    (refresh tmStale 1000
      (.response 200 (some { access_token := some "at2", refresh_token := some "rt2", expires_in := some 1800 }))
      noExp).1 = true ∧
    (refresh tmStale 1000
      (.response 200 (some { access_token := some "at2", refresh_token := some "rt2", expires_in := some 1800 }))
      noExp).2.1.expires_at = 1000 + 1800 := by
  have h := (refresh_spec tmStale 1000
    (.response 200 (some { access_token := some "at2", refresh_token := some "rt2", expires_in := some 1800 }))
    noExp).2.2.2.2.2
    { access_token := some "at2", refresh_token := some "rt2", expires_in := some 1800 }
    "at2" (by decide) rfl rfl (by decide)
  exact ⟨h.1, h.2.2.2.2.1 1800 rfl (by decide)⟩

/-- C5: every `save_credentials` leaves the credentials file with permission
bits exactly 0o600 and the parent directory existing, and the invariant
holds after the writes performed by `set_tokens` (which always persists)
and by every successful `refresh`. -/
theorem credentials_mode_invariant (fs : FS) (r : CredsRecord) (s : TMState)
    (now : Int) (a : String) (rt cid : Option String) (ei : Int)
    (oc : HttpOutcome) (decode : String → Option Int) :
    ((save_credentials fs r).mode = 0o600 ∧ (save_credentials fs r).dirExists = true) ∧
    ((set_tokens_fs s fs now a rt ei cid).2.mode = 0o600 ∧
      (set_tokens_fs s fs now a rt ei cid).2.dirExists = true) ∧
    ((refresh_fs s fs now oc decode).1 = true →
      (refresh_fs s fs now oc decode).2.2.mode = 0o600 ∧
      (refresh_fs s fs now oc decode).2.2.dirExists = true) := by
  refine ⟨⟨rfl, rfl⟩, ⟨rfl, rfl⟩, ?_⟩
  intro hok
  unfold refresh_fs at hok ⊢
  rcases refresh_cases s now oc decode with
    ⟨b, tok, s1, _, _, _, _, heq, _⟩ | heq
  · rw [heq]
    exact ⟨rfl, rfl⟩
  · rw [heq] at hok
    simp at hok

/-- C5 witness: a successful refresh starting from a filesystem with no
credentials directory ends with a 0600-mode file in an existing
directory. -/
theorem credentials_mode_invariant_witness :
    (refresh_fs tmStale fs0 1000
      (.response 200 (some { access_token := some "n", refresh_token := none, expires_in := some 60 }))
      noExp).1 = true ∧
    (refresh_fs tmStale fs0 1000
      (.response 200 (some { access_token := some "n", refresh_token := none, expires_in := some 60 }))
      noExp).2.2.mode = 0o600 ∧
    (refresh_fs tmStale fs0 1000
      (.response 200 (some { access_token := some "n", refresh_token := none, expires_in := some 60 }))
      noExp).2.2.dirExists = true := by
  have h := (credentials_mode_invariant fs0
    { access_token := "a", refresh_token := none, expires_at := 0, api_url := "u", client_id := none }
    tmStale 1000 "a" none none 0
    (.response 200 (some { access_token := some "n", refresh_token := none, expires_in := some 60 }))
    noExp).2.2 (by decide)
  exact ⟨by decide, h.1, h.2⟩

/-- C6 (counterexample): saving a record whose `client_id` is the empty
string drops the key (the `if client_id:` truthiness guard), so the loaded
record's `client_id` differs from the one that was given. -/
theorem save_load_empty_client_id_lost :
    ((load_credentials (save_credentials fs0
        { access_token := "a", refresh_token := none, expires_at := 1
          api_url := "u", client_id := some "" })).getD []).getStr? "client_id" = none ∧
    (CredsRecord.client_id
      { access_token := "a", refresh_token := none, expires_at := 1
        api_url := "u", client_id := some "" }) = some "" ∧
    (some "" : Option String) ≠ none := by
  decide

/-- C6 (amended): for every record whose `client_id` is not the empty
string, `save_credentials` then `load_credentials` returns exactly the
saved payload, and each field reads back equal to the record's field
(`client_id` included when one was given). -/
theorem save_load_roundtrip (fs : FS) (x : CredsRecord)
    (h : x.client_id ≠ some "") :
    load_credentials (save_credentials fs x) = some x.toJObj ∧
    x.toJObj.getStr? "access_token" = some x.access_token ∧
    x.toJObj.getStr? "refresh_token" = x.refresh_token ∧
    x.toJObj.get? "expires_at" = some (.num x.expires_at) ∧
    x.toJObj.getStr? "api_url" = some x.api_url ∧
    x.toJObj.getStr? "client_id" = x.client_id := by
  refine ⟨?_, ?_, ?_, ?_, ?_, ?_⟩
  · simp [load_credentials, save_credentials, CredsRecord.toJObj, JObj.get?]
  · simp [CredsRecord.toJObj, JObj.getStr?, JObj.get?]
  · cases hr : x.refresh_token <;>
      simp [CredsRecord.toJObj, JObj.getStr?, JObj.get?, List.find?, hr]
  · cases hr : x.refresh_token <;>
      simp [CredsRecord.toJObj, JObj.get?, List.find?, hr]
  · cases hr : x.refresh_token <;>
      simp [CredsRecord.toJObj, JObj.getStr?, JObj.get?, List.find?, hr]
  · cases hc : x.client_id with
    | none =>
      cases hr : x.refresh_token <;>
        simp [CredsRecord.toJObj, JObj.getStr?, JObj.get?, List.find?, hr, hc]
    | some c =>
      have hc' : c ≠ "" := by
        intro he
        exact h (by rw [hc, he])
      cases hr : x.refresh_token <;>
        simp [CredsRecord.toJObj, JObj.getStr?, JObj.get?, List.find?, hr, hc, hc']

/-- C6 witness: a full concrete record (with a client id) round-trips. -/
theorem save_load_roundtrip_witness :
    load_credentials (save_credentials fs0
      { access_token := "a", refresh_token := some "r", expires_at := 5
        api_url := "u", client_id := some "c" }) =
      some (CredsRecord.toJObj
        { access_token := "a", refresh_token := some "r", expires_at := 5
          api_url := "u", client_id := some "c" }) ∧
    (CredsRecord.toJObj
      { access_token := "a", refresh_token := some "r", expires_at := 5
        api_url := "u", client_id := some "c" }).getStr? "client_id" = some "c" := by
  have h := save_load_roundtrip fs0
    { access_token := "a", refresh_token := some "r", expires_at := 5
      api_url := "u", client_id := some "c" } (by decide)
  exact ⟨h.1, h.2.2.2.2.2⟩

-- Helper lemmas for the request tail.

/-- `finishRequest` reports exactly the replay count it is handed. -/
theorem finishRequest_replays (r : Resp) (n : Nat) (a : Bool) :
    (finishRequest r n a).replays = n := by
  unfold finishRequest
  split <;> rfl

/-- `finishRequest` reports exactly the recovery-attempt flag it is
handed. -/
theorem finishRequest_attempted (r : Resp) (n : Nat) (a : Bool) :
    (finishRequest r n a).recoveryAttempted = a := by
  unfold finishRequest
  split <;> rfl

/-- On a 401 whose `WWW-Authenticate` header contains "revoked",
`handle_api_error` exits `EXIT_AUTH_FAILURE` with the revoked-specialised
message and hint. -/
theorem handle_api_error_revoked (r : Resp) (h1 : r.status = 401)
    (h2 : lowerContains r.wwwAuth "revoked" = true) :
    handle_api_error r =
      { exitCode := EXIT_AUTH_FAILURE
        message := "Authentication failed — token has been revoked"
        hint := some "Create new credentials and run `fz auth login`." } := by
  simp [handle_api_error, statusMap, h1, h2]

/-- C4: when the first response is a 401 whose `WWW-Authenticate` contains
"revoked" (case-insensitive), the engine never calls the auth recovery
path, never replays, and exits with code `EXIT_AUTH_FAILURE` (2) and the
revoked-specialised message; on a non-revoked 401 with successful recovery
the request is replayed exactly once; and no execution replays more than
once. -/
theorem request_401_replay (first : Resp) (authOk : Bool)
    (replay : ReplayAttempt) :
    (first.status = 401 → lowerContains first.wwwAuth "revoked" = true →
      (clientRequest first authOk replay).recoveryAttempted = false ∧
      (clientRequest first authOk replay).replays = 0 ∧
      (clientRequest first authOk replay).exitCode = some EXIT_AUTH_FAILURE ∧
      (clientRequest first authOk replay).message =
        some "Authentication failed — token has been revoked") ∧
    (first.status = 401 → lowerContains first.wwwAuth "revoked" = false →
      authOk = true → (clientRequest first authOk replay).replays = 1) ∧
    (clientRequest first authOk replay).replays ≤ 1 := by
  refine ⟨?_, ?_, ?_⟩
  · intro h1 h2
    have he := handle_api_error_revoked first h1 h2
    have hge : 400 ≤ first.status := by
      rw [h1]
      decide
    simp [clientRequest, h1, h2, finishRequest, hge, he]
  · intro h1 h2 h3
    subst h3
    cases replay with
    | netErr => simp [clientRequest, h1, h2]
    | resp r2 => simp [clientRequest, h1, h2, finishRequest_replays]
  · by_cases h1 : first.status = 401
    · by_cases h2 : lowerContains first.wwwAuth "revoked" = true
      · simp [clientRequest, h1, h2, finishRequest_replays]
      · cases authOk with
        | false =>
          simp [clientRequest, h1, eq_false_of_ne_true h2, finishRequest_replays]
        | true =>
          cases replay with
          | netErr =>
            simp [clientRequest, h1, eq_false_of_ne_true h2]
          | resp r2 =>
            simp [clientRequest, h1, eq_false_of_ne_true h2, finishRequest_replays]
    · simp [clientRequest, h1, finishRequest_replays]

/-- C4 witness: a revoked 401 is not replayed; a plain 401 with successful
recovery is replayed exactly once. -/
theorem request_401_replay_witness :
    (clientRequest { status := 401, wwwAuth := "Bearer error=\"revoked\"", detail := none }
      true (.resp { status := 200, wwwAuth := "", detail := none })).replays = 0 ∧
    (clientRequest { status := 401, wwwAuth := "Bearer error=\"revoked\"", detail := none }
      true (.resp { status := 200, wwwAuth := "", detail := none })).recoveryAttempted = false ∧
    (clientRequest { status := 401, wwwAuth := "", detail := none }
      true (.resp { status := 200, wwwAuth := "", detail := none })).replays = 1 := by
  have ha := (request_401_replay
    { status := 401, wwwAuth := "Bearer error=\"revoked\"", detail := none }
    true (.resp { status := 200, wwwAuth := "", detail := none })).1 rfl (by decide)
  have hb := (request_401_replay { status := 401, wwwAuth := "", detail := none }
    true (.resp { status := 200, wwwAuth := "", detail := none })).2.1 rfl (by decide) rfl
  exact ⟨ha.2.1, ha.1, hb⟩

/-- C8: with every earlier poll non-terminal and within the timeout,
`_wait_for_run` settles at the first decisive poll — a terminal `failed`
snapshot exits `EXIT_RUN_FAILED` (6), a terminal `completed`/`cancelled`
snapshot is returned normally (whatever polls would follow), and a
non-terminal poll observed with elapsed time beyond the timeout exits
`EXIT_TIMEOUT` (7). -/
theorem wait_for_run_spec (timeout : Int) (pre : List (RunSnap × Int))
    (run : RunSnap) (e : Int) (rest : List (RunSnap × Int))
    (hpre : ∀ p ∈ pre, isTerminal p.1.status = false ∧ p.2 ≤ timeout) :
    (isTerminal run.status = true → run.status = "failed" →
      waitForRun timeout (pre ++ (run, e) :: rest) = some (.exit EXIT_RUN_FAILED)) ∧
    (isTerminal run.status = true → run.status ≠ "failed" →
      waitForRun timeout (pre ++ (run, e) :: rest) = some (.ret run)) ∧
    (isTerminal run.status = false → e > timeout →
      waitForRun timeout (pre ++ (run, e) :: rest) = some (.exit EXIT_TIMEOUT)) := by
  induction pre with
  | nil =>
    refine ⟨?_, ?_, ?_⟩
    · intro ht hf
      simp [waitForRun, hf, isTerminal]
    · intro ht hf
      simp [waitForRun, ht, hf]
    · intro ht he
      simp [waitForRun, ht, he]
  | cons p t ih =>
    obtain ⟨ps, pe⟩ := p
    have hp := hpre (ps, pe) (by simp)
    have ht' : ∀ q ∈ t, isTerminal q.1.status = false ∧ q.2 ≤ timeout := by
      intro q hq
      exact hpre q (by simp [hq])
    have hstep : waitForRun timeout (((ps, pe) :: t) ++ (run, e) :: rest) =
        waitForRun timeout (t ++ (run, e) :: rest) := by
      simp [waitForRun, hp.1, not_lt.mpr hp.2]
    rw [hstep]
    exact ih ht'

/-- C8 witness: one non-terminal poll then `failed` exits with code 6; a
run that stays non-terminal past the timeout exits with code 7. -/
theorem wait_for_run_spec_witness :
    waitForRun 600 [({ status := "running", errorMessage := none }, 2),
                    ({ status := "failed", errorMessage := some "boom" }, 4)] =
      some (.exit EXIT_RUN_FAILED) ∧
    waitForRun 3 [({ status := "running", errorMessage := none }, 2),
                  ({ status := "running", errorMessage := none }, 4)] =
      some (.exit EXIT_TIMEOUT) ∧
    waitForRun 600 [({ status := "completed", errorMessage := none }, 2)] =
      some (.ret { status := "completed", errorMessage := none }) := by
  have h1 := (wait_for_run_spec 600 [({ status := "running", errorMessage := none }, 2)]
    { status := "failed", errorMessage := some "boom" } 4 [] (by decide)).1
    (by decide) rfl
  have h2 := (wait_for_run_spec 3 [({ status := "running", errorMessage := none }, 2)]
    { status := "running", errorMessage := none } 4 [] (by decide)).2.2
    (by decide) (by decide)
  have h3 := (wait_for_run_spec 600 []
    { status := "completed", errorMessage := none } 2 [] (by decide)).2.1
    (by decide) (by decide)
  exact ⟨h1, h2, h3⟩

/-- C9 (counterexample): with `authkit_subdomain` (resp. `oauth_client_id`)
set at top level in both the global config and the local
`.fluidzero.toml`, `load_config` resolves the GLOBAL value: the local
value does not override it, against the claimed layering. -/
theorem local_top_level_keys_ignored :
    (load_config { Toml.empty with authkit_subdomain := some "global-sub" }
        { Toml.empty with authkit_subdomain := some "local-sub" }
        Env.empty).authkit_subdomain = "global-sub" ∧
    ("global-sub" : String) ≠ "local-sub" ∧
    (load_config { Toml.empty with oauth_client_id := some "global-cid" }
        { Toml.empty with oauth_client_id := some "local-cid" }
        Env.empty).oauth_client_id = "global-cid" ∧
    ("global-cid" : String) ≠ "local-cid" := by
  decide

/-- C9 (amended): the layering local-file-over-global-file holds for the
keys of the `[defaults]`, `[upload]` and `[runs]` sections, and the
environment overrides both for every key that has an environment variable;
but the top-level keys `authkit_subdomain` and `oauth_client_id` are read
from the GLOBAL config only — a local value is ignored (the environment
still overrides the global value). -/
theorem config_layering (g l : Toml) (env : Env) :
    (∀ v, l.defaults_api_url = some v → env.fz_api_url = none →
      (load_config g l env).api_url = v) ∧
    (∀ v, l.defaults_output = some v → env.fz_output = none →
      (load_config g l env).output = v) ∧
    (∀ v, l.top_project = none → l.defaults_project = some v →
      env.fz_project_id = none → (load_config g l env).project = some v) ∧
    (∀ v, l.upload_concurrency = some v →
      (load_config g l env).upload_concurrency = v) ∧
    (∀ v, l.upload_retry_attempts = some v →
      (load_config g l env).upload_retry_attempts = v) ∧
    (∀ v, l.runs_poll_interval = some v →
      (load_config g l env).run_poll_interval = v) ∧
    (∀ v, l.runs_timeout = some v → (load_config g l env).run_timeout = v) ∧
    (∀ v, env.fz_api_url = some v → v ≠ "" → (load_config g l env).api_url = v) ∧
    (∀ v, env.fz_output = some v → v ≠ "" → (load_config g l env).output = v) ∧
    (∀ v, env.fz_project_id = some v → v ≠ "" →
      (load_config g l env).project = some v) ∧
    (∀ v, env.fz_authkit_subdomain = some v → v ≠ "" →
      (load_config g l env).authkit_subdomain = v) ∧
    (∀ v, env.fz_oauth_client_id = some v → v ≠ "" →
      (load_config g l env).oauth_client_id = v) ∧
    (∀ v w, (load_config g { l with authkit_subdomain := v, oauth_client_id := w }
        env).authkit_subdomain = (load_config g l env).authkit_subdomain ∧
      (load_config g { l with authkit_subdomain := v, oauth_client_id := w }
        env).oauth_client_id = (load_config g l env).oauth_client_id) ∧
    (∀ v, env.fz_authkit_subdomain = none → g.authkit_subdomain = some v →
      v ≠ "" → (load_config g l env).authkit_subdomain = v) := by
  refine ⟨?_, ?_, ?_, ?_, ?_, ?_, ?_, ?_, ?_, ?_, ?_, ?_, ?_, ?_⟩
  · intro v hv he
    simp [load_config, envOr, hv, he]
  · intro v hv he
    simp [load_config, envOr, hv, he]
  · intro v ht hv he
    simp [load_config, envOrOpt, ht, hv, he]
  · intro v hv
    simp [load_config, hv]
  · intro v hv
    simp [load_config, hv]
  · intro v hv
    simp [load_config, hv]
  · intro v hv
    simp [load_config, hv]
  · intro v hv hne
    simp [load_config, envOr, hv, hne]
  · intro v hv hne
    simp [load_config, envOr, hv, hne]
  · intro v hv hne
    simp [load_config, envOrOpt, hv, hne]
  · intro v hv hne
    simp [load_config, envOr, hv, hne]
  · intro v hv hne
    simp [load_config, envOr, hv, hne]
  · intro v w
    exact ⟨rfl, rfl⟩
  · intro v he hg hne
    simp [load_config, envOr, he, hg, hne]

/-- C9 witness: a local `api_url` beats the global one, and the environment
beats the global `authkit_subdomain`. -/
theorem config_layering_witness :
    (load_config { Toml.empty with defaults_api_url := some "https://g" }
        { Toml.empty with defaults_api_url := some "https://l" }
        Env.empty).api_url = "https://l" ∧
    (load_config { Toml.empty with authkit_subdomain := some "gsub" } Toml.empty
        { Env.empty with fz_authkit_subdomain := some "esub" }).authkit_subdomain =
      "esub" := by
  have h1 := (config_layering { Toml.empty with defaults_api_url := some "https://g" }
    { Toml.empty with defaults_api_url := some "https://l" } Env.empty).1
    "https://l" rfl rfl
  have h2 := (config_layering { Toml.empty with authkit_subdomain := some "gsub" }
    Toml.empty { Env.empty with fz_authkit_subdomain := some "esub" }
    ).2.2.2.2.2.2.2.2.2.2.1 "esub" rfl (by decide)
  exact ⟨h1, h2⟩

-- Helper lemmas for the upload part plan.

/-- Sum of chunk sizes over `n` parts that the file fully covers: every
chunk is a full part. -/
theorem full_parts_sum (ps : Int) (hps : 0 < ps) :
    ∀ (n : Nat) (F : Int), (n : Int) * ps ≤ F →
      (((List.range n).map (fun k : Nat => min ps (F - (k : Int) * ps))).sum =
        (n : Int) * ps) := by
  intro n
  induction n with
  | zero =>
    intro F _
    simp
  | succ m ih =>
    intro F hF
    push_cast at hF
    have hm : (m : Int) * ps ≤ F := by nlinarith
    rw [List.range_succ, List.map_append, List.sum_append, ih F hm]
    have hlast : min ps (F - (m : Int) * ps) = ps := by
      apply min_eq_left
      nlinarith
    simp [hlast]
    ring

/-- The per-part chunk sizes `min(partSize, F - k·partSize)` for
`k = 0, …, totalParts-1` sum to the file size whenever
`(totalParts-1)·partSize < F ≤ totalParts·partSize`. -/
theorem chunk_sizes_sum (ps F : Int) (tp : Nat) (h1 : 1 ≤ tp)
    (h2 : ((tp : Int) - 1) * ps < F) (h3 : F ≤ (tp : Int) * ps) :
    (((List.range tp).map (fun k : Nat => min ps (F - (k : Int) * ps))).sum = F) := by
  obtain ⟨m, rfl⟩ : ∃ m, tp = m + 1 := ⟨tp - 1, by omega⟩
  push_cast at h2 h3
  have hm : (m : Int) * ps < F := by
    have he : ((m : Int) + 1 - 1) * ps = (m : Int) * ps := by ring
    rw [he] at h2
    exact h2
  have hps : 0 < ps := by nlinarith
  rw [List.range_succ, List.map_append, List.sum_append,
      full_parts_sum ps hps m F (le_of_lt hm)]
  have hlast : min ps (F - (m : Int) * ps) = F - (m : Int) * ps := by
    apply min_eq_right
    nlinarith
  simp [hlast]

/-- Each part number `1, …, totalParts` occurs exactly once in the presigned
plan's part-number list. -/
theorem partNumbers_count (tp pn : Nat) :
    (partNumbers tp).count pn = if 1 ≤ pn ∧ pn ≤ tp then 1 else 0 := by
  induction tp with
  | zero =>
    simp only [partNumbers, List.range_zero, List.map_nil, List.count_nil]
    split_ifs <;> omega
  | succ m ih =>
    have hsplit : partNumbers (m + 1) = partNumbers m ++ [m + 1] := by
      simp [partNumbers, List.range_succ]
    rw [hsplit, List.count_append, ih]
    simp [List.count_cons, List.count_nil]
    split_ifs <;> omega

/-- Every planned chunk size is nonnegative and bounded by the bytes left
from its offset, under the init response's size relation (or the empty
single-part case). -/
theorem chunk_nonneg (F ps : Int) (tp : Nat)
    (h : (1 ≤ tp ∧ ((tp : Int) - 1) * ps < F ∧ F ≤ (tp : Int) * ps) ∨
         (F = 0 ∧ tp = 1 ∧ 0 ≤ ps))
    (k : Nat) (hk : k < tp) :
    0 ≤ min ps (F - (k : Int) * ps) ∧
    min ps (F - (k : Int) * ps) ≤ F - (k : Int) * ps := by
  refine ⟨?_, min_le_right _ _⟩
  rcases h with ⟨h1, h2, h3⟩ | ⟨hF, htp, hps⟩
  · have hexp : ((tp : Int) - 1) * ps = (tp : Int) * ps - ps := by ring
    rw [hexp] at h2
    have hps : 0 < ps := by linarith
    have hk' : (k : Int) ≤ (tp : Int) - 1 := by
      have hklt : (k : Int) < (tp : Int) := by exact_mod_cast hk
      omega
    have hmul : (k : Int) * ps ≤ ((tp : Int) - 1) * ps :=
      mul_le_mul_of_nonneg_right hk' (le_of_lt hps)
    rw [hexp] at hmul
    exact le_min (le_of_lt hps) (by linarith)
  · subst hF
    subst htp
    have hk0 : k = 0 := by omega
    subst hk0
    simpa using le_min hps (le_refl 0)

/-- C7: when the presigned URLs carry part numbers exactly `1..totalParts`
with `(totalParts-1)·partSize < |F| ≤ totalParts·partSize` (or `|F| = 0`
with a single part), every planned part sits at offset
`(partNumber-1)·partSize` and reads exactly `min(partSize, |F| - offset)`
bytes, the recorded part sizes sum to `|F|`, and every part number in
`[1, totalParts]` is recorded exactly once (any other part number, not at
all). -/
theorem upload_parts_spec (F ps : Int) (tp : Nat)
    (h : (1 ≤ tp ∧ ((tp : Int) - 1) * ps < F ∧ F ≤ (tp : Int) * ps) ∨
         (F = 0 ∧ tp = 1 ∧ 0 ≤ ps)) :
    (∀ t ∈ partsToUpload F ps (partNumbers tp),
       t.offset = ((t.partNumber : Int) - 1) * ps ∧
       t.size = min ps (F - t.offset) ∧
       readLen F t.offset t.size = t.size) ∧
    ((recordedParts F ps tp).map Prod.snd).sum = F ∧
    (∀ pn : Nat, ((recordedParts F ps tp).map Prod.fst).count pn =
       if 1 ≤ pn ∧ pn ≤ tp then 1 else 0) := by
  have hcast : ∀ k : Nat, (((k + 1 : Nat) : Int) - 1) = (k : Int) := by
    intro k
    push_cast
    ring
  have hmap : (recordedParts F ps tp).map Prod.snd =
      (List.range tp).map (fun k : Nat => min ps (F - (k : Int) * ps)) := by
    simp only [recordedParts, partsToUpload, partNumbers, List.map_map]
    apply List.map_congr_left
    intro k hk
    have h0 := chunk_nonneg F ps tp h k (List.mem_range.mp hk)
    simp only [Function.comp_apply]
    rw [hcast k]
    unfold readLen
    rw [min_eq_left h0.2, max_eq_right h0.1]
  refine ⟨?_, ?_, ?_⟩
  · intro t ht
    rcases List.mem_map.mp ht with ⟨pn, hpn, rfl⟩
    rcases List.mem_map.mp hpn with ⟨k, hk, rfl⟩
    have h0 := chunk_nonneg F ps tp h k (List.mem_range.mp hk)
    refine ⟨rfl, rfl, ?_⟩
    simp only
    rw [hcast k]
    unfold readLen
    rw [min_eq_left h0.2, max_eq_right h0.1]
  · rcases h with ⟨h1, h2, h3⟩ | ⟨hF, htp, hps⟩
    · rw [hmap]
      exact chunk_sizes_sum ps F tp h1 h2 h3
    · subst hF
      subst htp
      rw [hmap]
      have hone : (List.range 1).map (fun k : Nat => min ps ((0 : Int) - (k : Int) * ps)) =
          [min ps 0] := by
        show [min ps ((0 : Int) - ((0 : Nat) : Int) * ps)] = [min ps 0]
        norm_num
      rw [hone]
      simp [min_eq_right hps]
  · intro pn
    have hfst : ∀ l : List Nat,
        ((partsToUpload F ps l).map
          (fun t => (t.partNumber, readLen F t.offset t.size))).map Prod.fst = l := by
      intro l
      induction l with
      | nil => rfl
      | cons x xs ih =>
        simp only [partsToUpload, List.map_cons, List.map_map] at ih ⊢
        rw [ih]
    rw [show (recordedParts F ps tp).map Prod.fst =
        ((partsToUpload F ps (partNumbers tp)).map
          (fun t => (t.partNumber, readLen F t.offset t.size))).map Prod.fst from rfl,
      hfst (partNumbers tp)]
    exact partNumbers_count tp pn

/-- C7 witness: a 10-byte file in three parts of size 4 — parts read 4, 4
and 2 bytes, summing to 10, and each part number 1..3 is recorded once. -/
theorem upload_parts_spec_witness :
    ((recordedParts 10 4 3).map Prod.snd).sum = 10 ∧
    ((recordedParts 10 4 3).map Prod.fst).count 2 = 1 ∧
    ((recordedParts 10 4 3).map Prod.fst).count 4 = 0 := by
  have h := upload_parts_spec 10 4 3 (Or.inl ⟨by decide, by decide, by decide⟩)
  exact ⟨h.2.1, by simpa using h.2.2 2, by simpa using h.2.2 4⟩

end FzCli
